import Mathlib

/-!
Verification development for the pharmacy sales chatbot
(`llm.py`, `integration.py`, `function_calls.py`, `prompt.py`).

Shallow embedding conventions:
* Python strings are modelled as `List Char` (`Str`); string methods
  (`split`, `strip`, `lower`, substring `in`) are embedded over ASCII,
  the character repertoire the program's keyword tables and templates use.
* The literal response templates of `prompt.py` are treated as opaque
  formatting functions (per their use in the engine): each distinct
  template is one constructor of the `Resp` type, carrying the data the
  source interpolates into it.
* External effects (the directory-lookup HTTP call and the two OpenAI
  chat-completion calls) are oracle inputs to the step functions: the
  lookup outcome is a `LookupOutcome`, the parsed field-extraction
  result (after `_extract_pharmacy_info_for_field`'s fence-stripping,
  JSON parsing and `None`-filtering, all of whose failure modes yield
  the empty dict) is a `CollectedInfo`, and the free-text completion is
  a `Str`.
* A Python exception escaping a handler is modelled as `Option.none` in
  that handler's response position; `try`/`except` blocks are explicit
  `match`es on that option.
-/

namespace Pharmesol

/-- Python `str` restricted to its character list. -/
abbrev Str := List Char

/-- Python `str.split()` whitespace (ASCII part): the characters
`str.split` with no argument splits on. -/
def isPySpace (c : Char) : Bool :=
  c = ' ' || c = '\t' || c = '\n' || c = '\r' || c = '\x0b' || c = '\x0c'

/-- Python `str.lower()` (ASCII). -/
def toLowerStr (s : Str) : Str := s.map Char.toLower

/-- Python `str.strip()`: drop leading and trailing whitespace. -/
def stripStr (s : Str) : Str :=
  ((s.dropWhile isPySpace).reverse.dropWhile isPySpace).reverse

/-- Helper for `splitWords`: `acc` is the current word, reversed. -/
def splitWordsAux : Str → Str → List Str
  | [], acc => if acc.isEmpty then [] else [acc.reverse]
  | c :: rest, acc =>
    if isPySpace c then
      if acc.isEmpty then splitWordsAux rest []
      else acc.reverse :: splitWordsAux rest []
    else splitWordsAux rest (c :: acc)

/-- Python `str.split()` with no argument: maximal runs of
non-whitespace characters, no empty words. -/
def splitWords (s : Str) : List Str := splitWordsAux s []

/-- Whether `pre` is a prefix of `s` (used by the substring test). -/
def startsWith : Str → Str → Bool
  | [], _ => true
  | _ :: _, [] => false
  | a :: as, b :: bs => a == b && startsWith as bs

/-- Python `needle in hay` substring test. -/
def containsSub (hay needle : Str) : Bool :=
  match hay with
  | [] => needle.isEmpty
  | _ :: rest => startsWith needle hay || containsSub rest needle

/-- First maximal run of decimal digits: `re.findall(r"\d+", s)[0]`
when it exists (`llm.py` line 309). -/
def firstDigitRun : Str → Option Str
  | [] => none
  | c :: rest =>
    if c.isDigit then some (c :: rest.takeWhile Char.isDigit)
    else firstDigitRun rest

/-- Python `int` on a run of decimal digits. -/
def digitsToNat (s : Str) : Nat :=
  s.foldl (fun n c => 10 * n + (c.toNat - ('0').toNat)) 0

/-! ### The email regular expression

`llm.py` line 341 uses
`r"\b[A-Za-z0-9._%+-]+@[A-Za-z0-9.-]+\.[A-Z|a-z]{2,}\b"` with
`re.findall` and keeps the first match.  The embedding below implements
the leftmost-first backtracking match of that pattern: the local part
`[A-Za-z0-9._%+-]+` is cut off by `@` (which is not in its class, so no
backtracking applies there), the greedy domain part `[A-Za-z0-9.-]+`
backtracks from the right to place the literal dot, and the greedy
trailing class `[A-Z|a-z]{2,}` backtracks down to length 2 to satisfy
the final word boundary. -/

/-- Regex `\w` (ASCII): letters, digits, underscore. -/
def isWordCh (c : Char) : Bool := c.isAlpha || c.isDigit || c = '_'

/-- Character class `[A-Za-z0-9._%+-]`. -/
def isLocalCh (c : Char) : Bool :=
  c.isAlpha || c.isDigit || c = '.' || c = '_' || c = '%' || c = '+' || c = '-'

/-- Character class `[A-Za-z0-9.-]`. -/
def isDomainCh (c : Char) : Bool := c.isAlpha || c.isDigit || c = '.' || c = '-'

/-- Character class `[A-Z|a-z]` (the source pattern literally includes
`|` inside the class). -/
def isTldCh (c : Char) : Bool := c.isAlpha || c = '|'

/-- Regex `\b` between an optional previous and next character. -/
def wordBoundary (a b : Option Char) : Bool :=
  (a.any isWordCh) != (b.any isWordCh)

/-- Backtrack the greedy `[A-Z|a-z]{2,}` until the final `\b` holds,
longest candidate first, never shorter than 2.  The candidate run is
passed REVERSED (`rrun`), so dropping its last character is structural;
`after` is the input following the candidate.  Returns the matched
trailing class part (in order). -/
def tryTldLens : Str → Str → Option Str
  | [], _ => none
  | c :: rrest, after =>
    if rrest.isEmpty then none
    else if wordBoundary (some c) after.head? then some ((c :: rrest).reverse)
    else tryTldLens rrest (c :: after)

/-- Backtrack the greedy domain class, trying the rightmost
literal-dot placement first.  The not-yet-shortened part of the domain
run is passed REVERSED (`rbpart`), `tail` is the already-shed part (in
order) and `after` the input following the whole run.  Returns the
matched `domain ++ "." ++ tld` part (in order). -/
def tryDots : Str → Str → Str → Option Str
  | [], _, _ => none
  | c :: rrest, tail, after =>
    if c = '.' && !rrest.isEmpty then
      let src := tail ++ after
      let tldRun := src.takeWhile isTldCh
      match tryTldLens tldRun.reverse (src.dropWhile isTldCh) with
      | some t => some (rrest.reverse ++ '.' :: t)
      | none => tryDots rrest (c :: tail) after
    else tryDots rrest (c :: tail) after

/-- Attempt the email pattern at one start position: `prev` is the
character before the position (for the leading `\b`), `s` the rest. -/
def matchEmailAt (prev : Option Char) (s : Str) : Option Str :=
  if !wordBoundary prev s.head? then none
  else
    let lp := s.takeWhile isLocalCh
    if lp.isEmpty then none
    else
      match s.dropWhile isLocalCh with
      | '@' :: r2 =>
        let dom := r2.takeWhile isDomainCh
        if dom.isEmpty then none
        else
          match tryDots dom.reverse [] (r2.dropWhile isDomainCh) with
          | some dpart => some (lp ++ '@' :: dpart)
          | none => none
      | _ => none

/-- Scan start positions left to right. -/
def findEmailAux : Option Char → Str → Option Str
  | _, [] => none
  | prev, c :: rest =>
    match matchEmailAt prev (c :: rest) with
    | some m => some m
    | none => findEmailAux (some c) rest

/-- First match of the email pattern in `s`
(`re.findall(email_pattern, s)[0]` when it exists, `llm.py` 341-344). -/
def findEmail (s : Str) : Option Str := findEmailAux none s

/-! ### Data model -/

/-- `ConversationState` (`prompt.py` 164-173). -/
inductive ConversationState where
  | greeting
  | collecting_info
  | discussing_solutions
  | offering_follow_up
  | scheduling
  | closing
  | error
deriving DecidableEq

/-- The fixed field order `info_collection_fields` (`llm.py` 63-69). -/
inductive Field where
  | pharmacy_name
  | location
  | rx_volume
  | contact_person
  | email
deriving DecidableEq

/-- `self.info_collection_fields[i]` for `i < 5`; every use is guarded
by the source's own `i < len(...)` checks, and the one place the source
indexes out of range (`llm.py` 367) is modelled explicitly as a raised
exception, never through this function. -/
def fieldAt : Nat → Field
  | 0 => .pharmacy_name
  | 1 => .location
  | 2 => .rx_volume
  | 3 => .contact_person
  | _ => .email

/-- `self.collected_info`: the accumulated extraction dictionary, with
one typed slot per field of `info_collection_fields`. `none` models a
missing key.  `rx_volume` is an `Int`: the AI tier stores numbers there
(digit strings are coerced by `llm.py` 185-187 before storage) and the
manual tier stores `int(numbers[0])`. -/
structure CollectedInfo where
  pharmacy_name : Option Str := none
  location : Option Str := none
  rx_volume : Option Int := none
  contact_person : Option Str := none
  email : Option Str := none
deriving DecidableEq

/-- The empty dictionary `{}`. -/
def emptyInfo : CollectedInfo := {}

/-- Python truthiness of a possibly-missing string value:
present and non-empty. -/
def truthyS : Option Str → Bool
  | some s => !s.isEmpty
  | none => false

/-- Python truthiness of a possibly-missing numeric value:
present and non-zero. -/
def truthyN : Option Int → Bool
  | some n => n != 0
  | none => false

/-- A heterogeneous collected value, for talking about one dictionary
slot uniformly. -/
inductive FieldVal where
  | s (v : Str)
  | n (v : Int)
deriving DecidableEq

/-- Dictionary lookup `collected_info.get(field)`. -/
def CollectedInfo.get (c : CollectedInfo) : Field → Option FieldVal
  | .pharmacy_name => c.pharmacy_name.map .s
  | .location => c.location.map .s
  | .rx_volume => c.rx_volume.map .n
  | .contact_person => c.contact_person.map .s
  | .email => c.email.map .s

/-- `field in collected_info and collected_info[field]` for one field. -/
def truthyAt (c : CollectedInfo) : Field → Bool
  | .pharmacy_name => truthyS c.pharmacy_name
  | .location => truthyS c.location
  | .rx_volume => truthyN c.rx_volume
  | .contact_person => truthyS c.contact_person
  | .email => truthyS c.email

/-- `_has_complete_info` (`llm.py` 375-387): every required field is
present and truthy. -/
def has_complete_info (c : CollectedInfo) : Bool :=
  truthyS c.pharmacy_name && truthyS c.location && truthyN c.rx_volume
    && truthyS c.contact_person && truthyS c.email

/-- `_get_next_missing_field` (`llm.py` 389-401): the first field that
is missing or falsy, with `pharmacy_name` as fallback. -/
def get_next_missing_field (c : CollectedInfo) : Field :=
  if !truthyS c.pharmacy_name then .pharmacy_name
  else if !truthyS c.location then .location
  else if !truthyN c.rx_volume then .rx_volume
  else if !truthyS c.contact_person then .contact_person
  else if !truthyS c.email then .email
  else .pharmacy_name

/-- `dict.update`: values present in `new` replace those in `c`
(`llm.py` 194). -/
def mergeInfo (c new : CollectedInfo) : CollectedInfo where
  pharmacy_name := match new.pharmacy_name with | some v => some v | none => c.pharmacy_name
  location := match new.location with | some v => some v | none => c.location
  rx_volume := match new.rx_volume with | some v => some v | none => c.rx_volume
  contact_person := match new.contact_person with | some v => some v | none => c.contact_person
  email := match new.email with | some v => some v | none => c.email

/-- `PharmacyData` (`integration.py` 16-27). -/
structure PharmacyData where
  id : Str
  name : Str
  phone : Str
  location : Str
  rx_volume : Int
  contact_person : Str
  email : Option Str := none
  notes : Option Str := none
deriving DecidableEq

/-- One entry of `FollowUpActions.sent_emails` (`function_calls.py`
56-65); the rendered subject/body and the wall-clock timestamp are
opaque formatting of the same data and are not repeated here. -/
structure EmailRecord where
  id : Nat
  to_email : Str
  pharmacy_name : Str
  contact_person : Str
  rx_volume : Int
deriving DecidableEq

/-- One entry of `FollowUpActions.scheduled_callbacks`
(`function_calls.py` 96-105). -/
structure CallbackRecord where
  id : Nat
  phone_number : Str
  preferred_time : Str
  pharmacy_name : Str
  contact_person : Str
deriving DecidableEq

/-- The three volume tiers of `get_solution_benefits`
(`prompt.py` 192-215). -/
inductive Tier where
  | high
  | mid
  | low
deriving DecidableEq

/-- The distinct reply strings the engine can produce, one constructor
per template or literal, carrying the data the source interpolates. -/
inductive Resp where
  | greetingExisting (pharmacy_name location : Str) (rx_volume : Int)
  | greetingNew
  | apiError
  | techDifficulties
  | collectingInfo (f : Field)
  | benefits (t : Tier)
  | followUpOptions
  | followUpRepeat
  | askEmailAddress
  | successfulClosing (emailSent : Bool) (pharmacy_name : Str)
  | callbackOffer
  | generalClosing
  | anythingElse
  | errorRecovered
  | solutionsFallback
  | defaultFallback
  | aiText (t : Str)
deriving DecidableEq

/-- `ResponseTemplates.get_solution_benefits` (`prompt.py` 192-215):
three fixed strings selected by volume thresholds. -/
def get_solution_benefits (rx : Int) : Resp :=
  .benefits (if rx ≥ 1000 then .high else if rx ≥ 500 then .mid else .low)

/-- A role-tagged transcript entry. -/
inductive HistMsg where
  | system (content : Str)
  | user (content : Str)
  | assistant (r : Resp)
deriving DecidableEq

/-- The per-call mutable state of `PharmacyChatbot` (`llm.py` 34-70)
together with the append-only logs of its `FollowUpActions` instance. -/
structure Chatbot where
  ai_available : Bool
  ai_extraction_failures : Nat := 0
  current_state : ConversationState := .greeting
  conversation_history : List HistMsg := []
  pharmacy_data : Option PharmacyData := none
  collected_info : CollectedInfo := {}
  current_info_field : Nat := 0
  sent_emails : List EmailRecord := []
  scheduled_callbacks : List CallbackRecord := []
deriving DecidableEq

/-- The freshly constructed chatbot (`llm.py` 27-70); `avail` is the
outcome of the API-key/connection test. -/
def initChatbot (avail : Bool) : Chatbot := { ai_available := avail }

/-! ### Manual-tier extraction (`_handle_manual_info_collection`) -/

/-- The `enumerate` loops of `llm.py` 250-259 / 294-304 / 324-336:
find the first word satisfying `p` and return it prefixed by the word
before it when there is one. -/
def findKeywordAdj (p : Str → Bool) : Option Str → List Str → Option Str
  | _, [] => none
  | prev, w :: ws =>
    if p w then
      some (match prev with
            | some pw => pw ++ ' ' :: w
            | none => w)
    else findKeywordAdj p (some w) ws

/-- The health-related keyword list of `llm.py` 267-279. -/
def health_keywords : List Str :=
  [("natural".data), ("health".data), ("care".data), ("medical".data),
   ("wellness".data), ("supplements".data), ("products".data)]

/-- Manual extraction for `pharmacy_name` (`llm.py` 246-282). -/
def extract_pharmacy_name (msg : Str) : Option Str :=
  let viaKeyword :=
    if containsSub (toLowerStr msg) ("pharmacy".data) then
      findKeywordAdj (fun w => containsSub (toLowerStr w) ("pharmacy".data))
        none (splitWords msg)
    else none
  match viaKeyword with
  | some v => some v
  | none =>
    let words := splitWords msg
    if words.length ≤ 3 then some (stripStr msg)
    else if words.any (fun w => health_keywords.contains (toLowerStr w)) then
      some (stripStr msg)
    else none

/-- The location keyword list of `llm.py` 291. -/
def city_keywords : List Str :=
  [("city".data), ("town".data), ("street".data), ("avenue".data), ("road".data)]

/-- Manual extraction for `location` (`llm.py` 283-304). -/
def extract_location (msg : Str) : Option Str :=
  let words := splitWords msg
  if words.length ≤ 3 then some (stripStr msg)
  else if city_keywords.any (fun k => containsSub (toLowerStr msg) k) then
    findKeywordAdj
      (fun w => city_keywords.any (fun k => containsSub (toLowerStr w) k))
      none words
  else none

/-- Manual extraction for `rx_volume` (`llm.py` 305-312): the first
digit run, as an integer. -/
def extract_rx_volume (msg : Str) : Option Int :=
  (firstDigitRun msg).map (fun d => (digitsToNat d : Int))

/-- The title keyword list of `llm.py` 321. -/
def title_keywords : List Str :=
  [("manager".data), ("owner".data), ("director".data), ("pharmacist".data)]

/-- Manual extraction for `contact_person` (`llm.py` 313-336). -/
def extract_contact_person (msg : Str) : Option Str :=
  let words := splitWords msg
  if words.length ≤ 3 then some (stripStr msg)
  else if title_keywords.any (fun k => containsSub (toLowerStr msg) k) then
    findKeywordAdj
      (fun w => title_keywords.any (fun k => containsSub (toLowerStr w) k))
      none words
  else none

/-- One manual extraction attempt for the given field: the updated
dictionary and the `info_extracted` flag (`llm.py` 239-345). -/
def manualCollect : Field → CollectedInfo → Str → CollectedInfo × Bool
  | .pharmacy_name, c, m =>
    match extract_pharmacy_name m with
    | some v => ({c with pharmacy_name := some v}, true)
    | none => (c, false)
  | .location, c, m =>
    match extract_location m with
    | some v => ({c with location := some v}, true)
    | none => (c, false)
  | .rx_volume, c, m =>
    match extract_rx_volume m with
    | some v => ({c with rx_volume := some v}, true)
    | none => (c, false)
  | .contact_person, c, m =>
    match extract_contact_person m with
    | some v => ({c with contact_person := some v}, true)
    | none => (c, false)
  | .email, c, m =>
    match findEmail m with
    | some v => ({c with email := some v}, true)
    | none => (c, false)

/-- `_handle_manual_info_collection` (`llm.py` 230-373).  The response
position is `none` exactly where the source raises: indexing
`info_collection_fields[self.current_info_field]` at `llm.py` 367 after
the cursor was incremented past the last field with the dictionary
still incomplete. -/
def handle_manual_info_collection (s : Chatbot) (msg : Str) :
    Chatbot × Option Resp :=
  if s.current_info_field ≥ 5 then
    ({s with current_state := .discussing_solutions},
     some (get_solution_benefits (s.collected_info.rx_volume.getD 0)))
  else
    let field := fieldAt s.current_info_field
    let attempt := manualCollect field s.collected_info msg
    let info' := attempt.1
    let extracted := attempt.2
    let cursor' :=
      if extracted then s.current_info_field + 1 else s.current_info_field
    let s' := {s with collected_info := info', current_info_field := cursor'}
    if has_complete_info info' then
      ({s' with current_state := .discussing_solutions},
       some (get_solution_benefits (info'.rx_volume.getD 0)))
    else if extracted then
      if cursor' < 5 then (s', some (.collectingInfo (fieldAt cursor')))
      else (s', none)
    else (s', some (.collectingInfo field))

/-! ### AI-tier extraction (`_handle_info_collection`) -/

/-- Truthiness of the extraction dictionary itself
(`extracted_info and ...`, `llm.py` 176): it has at least one key. -/
def aiNonempty (ai : CollectedInfo) : Bool :=
  ai.pharmacy_name.isSome || ai.location.isSome || ai.rx_volume.isSome
    || ai.contact_person.isSome || ai.email.isSome

/-- The acceptance guard of `llm.py` 175-179: non-empty dictionary,
requested key present, value truthy. -/
def aiGuard (ai : CollectedInfo) (f : Field) : Bool :=
  aiNonempty ai && truthyAt ai f

/-- The sanity check of `llm.py` 181-191: only `rx_volume` is checked,
and must be a positive number.  The source's digit-string-to-`int`
coercion and numeric-type test are absorbed by the `Int` typing of the
slot; a non-numeric or non-positive value fails the check. -/
def aiValid (ai : CollectedInfo) : Field → Bool
  | .rx_volume => decide (0 < ai.rx_volume.getD 0)
  | _ => true

/-- The `try` body of `_handle_info_collection` (`llm.py` 163-224):
AI tier guarded by availability and the failure counter, falling back
to the manual tier. -/
def info_collection_try (s : Chatbot) (msg : Str) (ai : CollectedInfo) :
    Chatbot × Option Resp :=
  let current_field := get_next_missing_field s.collected_info
  if s.ai_available ∧ s.ai_extraction_failures < 3 then
    if aiGuard ai current_field then
      if aiValid ai current_field then
        let info' := mergeInfo s.collected_info ai
        let s' := {s with collected_info := info'}
        if has_complete_info info' then
          ({s' with current_state := .discussing_solutions},
           some (get_solution_benefits (info'.rx_volume.getD 0)))
        else (s', some (.collectingInfo (get_next_missing_field info')))
      else
        handle_manual_info_collection
          {s with ai_extraction_failures := s.ai_extraction_failures + 1} msg
    else
      handle_manual_info_collection
        {s with ai_extraction_failures := s.ai_extraction_failures + 1} msg
  else handle_manual_info_collection s msg

/-- `_handle_info_collection` with its `except` clause (`llm.py`
226-228): an exception from the `try` body is answered by one more
manual-collection call on the state as mutated so far; an exception
from that call propagates. -/
def handle_info_collection (s : Chatbot) (msg : Str) (ai : CollectedInfo) :
    Chatbot × Option Resp :=
  match info_collection_try s msg ai with
  | (s', some r) => (s', some r)
  | (s', none) => handle_manual_info_collection s' msg

/-! ### The other state handlers -/

/-- The interest keywords of `llm.py` 406-408. -/
def interest_keywords : List Str :=
  [("yes".data), ("interested".data), ("more".data), ("information".data),
   ("details".data)]

/-- `_handle_solution_discussion` (`llm.py` 403-417); `gen` is the
free-text LLM completion used on the non-keyword path. -/
def handle_solution_discussion (s : Chatbot) (msg gen : Str) : Chatbot × Resp :=
  if interest_keywords.any (fun k => containsSub (toLowerStr msg) k) then
    ({s with current_state := .offering_follow_up}, .followUpOptions)
  else if s.ai_available then (s, .aiText gen)
  else (s, .solutionsFallback)

/-- `_get_email_address` (`llm.py` 520-526). -/
def get_email_address (s : Chatbot) : Option Str :=
  if truthyS s.collected_info.email then s.collected_info.email
  else
    match s.pharmacy_data with
    | some p => if truthyS p.email then p.email else none
    | none => none

/-- `_get_pharmacy_name` (`llm.py` 528-534). -/
def get_pharmacy_name (s : Chatbot) : Str :=
  if truthyS s.collected_info.pharmacy_name then
    s.collected_info.pharmacy_name.getD []
  else
    match s.pharmacy_data with
    | some p => p.name
    | none => ("your pharmacy".data)

/-- `send_welcome_email` composed with `send_email`
(`function_calls.py` 44-82, 127-166): append one record to the email
log, with the source's `or`-default for a falsy address. -/
def send_welcome_email (emails : List EmailRecord) (pd : PharmacyData) :
    List EmailRecord :=
  let toAddr : Str :=
    match pd.email with
    | some e => if e.isEmpty then ("contact@pharmacy.com".data) else e
    | none => ("contact@pharmacy.com".data)
  emails ++ [{ id := emails.length + 1, to_email := toAddr,
               pharmacy_name := pd.name, contact_person := pd.contact_person,
               rx_volume := pd.rx_volume }]

/-- `_handle_follow_up_offer` (`llm.py` 419-452). -/
def handle_follow_up_offer (s : Chatbot) (msg : Str) : Chatbot × Resp :=
  let low := toLowerStr msg
  if containsSub low ("email".data) then
    match get_email_address s with
    | some em =>
      let name := get_pharmacy_name s
      let pd : PharmacyData :=
        { id := ("new".data), name := name, phone := [], location := [],
          rx_volume := s.collected_info.rx_volume.getD 0,
          contact_person := s.collected_info.contact_person.getD [],
          email := some em }
      ({s with sent_emails := send_welcome_email s.sent_emails pd,
               current_state := .closing},
       .successfulClosing true name)
    | none => (s, .askEmailAddress)
  else if containsSub low ("call".data) || containsSub low ("consultation".data) then
    ({s with current_state := .scheduling}, .callbackOffer)
  else (s, .followUpRepeat)

/-- The time keywords of `llm.py` 457-468. -/
def time_keywords : List Str :=
  [("tomorrow".data), ("next week".data), ("monday".data), ("tuesday".data),
   ("wednesday".data), ("thursday".data), ("friday".data), ("morning".data),
   ("afternoon".data), ("evening".data)]

/-- `_handle_scheduling` (`llm.py` 454-497). -/
def handle_scheduling (s : Chatbot) (msg : Str) : Chatbot × Resp :=
  let low := toLowerStr msg
  let preferred : Str :=
    match time_keywords.find? (fun k => containsSub low k) with
    | some k => k ++ (" at 2 PM".data)
    | none => ("tomorrow at 2 PM".data)
  let name := get_pharmacy_name s
  let phone : Str :=
    match s.pharmacy_data with
    | some p => p.phone
    | none => []
  let cb : CallbackRecord :=
    { id := s.scheduled_callbacks.length + 1, phone_number := phone,
      preferred_time := preferred, pharmacy_name := name,
      contact_person := s.collected_info.contact_person.getD [] }
  ({s with scheduled_callbacks := s.scheduled_callbacks ++ [cb],
           current_state := .closing},
   .successfulClosing false name)

/-- The closing keywords of `llm.py` 501-504. -/
def closing_keywords : List Str :=
  [("no".data), ("nothing".data), ("goodbye".data), ("bye".data),
   ("thanks".data)]

/-- `_handle_closing` (`llm.py` 499-507). -/
def handle_closing (s : Chatbot) (msg : Str) : Chatbot × Resp :=
  if closing_keywords.any (fun k => containsSub (toLowerStr msg) k) then
    (s, .generalClosing)
  else (s, .anythingElse)

/-- `_handle_error_recovery` (`llm.py` 509-518): its `try` body cannot
raise, so the recovery path is unconditional. -/
def handle_error_recovery (s : Chatbot) : Chatbot × Resp :=
  ({s with ai_available := false, current_state := .collecting_info},
   .errorRecovered)

/-! ### The message-processing boundary -/

/-- Append one transcript entry. -/
def appendHist (s : Chatbot) (h : HistMsg) : Chatbot :=
  {s with conversation_history := s.conversation_history ++ [h]}

/-- The state dispatch of `process_message` (`llm.py` 132-150).
`none` in the response position models an exception escaping the
selected handler. -/
def route_message (s : Chatbot) (msg : Str) (ai : CollectedInfo) (gen : Str) :
    Chatbot × Option Resp :=
  match s.current_state with
  | .collecting_info => handle_info_collection s msg ai
  | .discussing_solutions =>
    let r := handle_solution_discussion s msg gen
    (r.1, some r.2)
  | .offering_follow_up =>
    let r := handle_follow_up_offer s msg
    (r.1, some r.2)
  | .scheduling =>
    let r := handle_scheduling s msg
    (r.1, some r.2)
  | .closing =>
    let r := handle_closing s msg
    (r.1, some r.2)
  | .error =>
    let r := handle_error_recovery s
    (r.1, some r.2)
  | .greeting =>
    (s, some (if s.ai_available then .aiText gen else .defaultFallback))

/-- `process_message` (`llm.py` 118-159): append the user message,
dispatch, append the reply; an escaped exception is resolved by the
outer `except` to the fixed technical-difficulties apology (with no
assistant entry appended). -/
def process_message (s : Chatbot) (msg : Str) (ai : CollectedInfo) (gen : Str) :
    Chatbot × Resp :=
  let s0 := appendHist s (.user msg)
  match route_message s0 msg ai gen with
  | (s1, some r) => (appendHist s1 (.assistant r), r)
  | (s1, none) => (s1, .techDifficulties)

/-- The outcome of the external directory lookup as seen by
`start_call`'s `try` block: a hit, a miss (which is also what
`get_pharmacy_by_phone` collapses persistent request failures to), or
an exception escaping the lookup. -/
inductive LookupOutcome where
  | found (p : PharmacyData)
  | notFound
  | raised
deriving DecidableEq

/-- `start_call` (`llm.py` 72-116). -/
def start_call (s : Chatbot) (phone : Str) (lk : LookupOutcome) :
    Chatbot × Resp :=
  match lk with
  | .raised => ({s with current_state := .error}, .apiError)
  | .found p =>
    let g : Resp := .greetingExisting p.name p.location p.rx_volume
    let s1 := {s with pharmacy_data := some p,
                      current_state := .discussing_solutions}
    (appendHist (appendHist s1 (.system phone)) (.assistant g), g)
  | .notFound =>
    let g : Resp := .greetingNew
    let s1 := {s with pharmacy_data := none,
                      current_state := .collecting_info,
                      current_info_field := 0}
    (appendHist (appendHist s1 (.system phone)) (.assistant g), g)

/-- The per-message oracle inputs of one `process_message` call. -/
structure MsgIn where
  msg : Str
  ai : CollectedInfo := {}
  gen : Str := []
deriving DecidableEq

/-- Fold `process_message` over a list of inbound messages. -/
def run_messages (s : Chatbot) : List MsgIn → Chatbot
  | [] => s
  | i :: rest => run_messages (process_message s i.msg i.ai i.gen).1 rest

/-- The states at which each message of the list is processed. -/
def processing_states (s : Chatbot) : List MsgIn → List Chatbot
  | [] => []
  | i :: rest => s :: processing_states (process_message s i.msg i.ai i.gen).1 rest

/-- Whether processing a message at state `s` issues the single-field
AI extraction request: the guard of `llm.py` 168 reached from the
`COLLECTING_INFO` dispatch arm. -/
def issues_extraction (s : Chatbot) : Bool :=
  decide (s.current_state = .collecting_info) && s.ai_available
    && decide (s.ai_extraction_failures < 3)

/-- `_clean_phone_number` (`integration.py` 243-245):
`"".join(filter(str.isdigit, phone))`. -/
def clean_phone_number (phone : Str) : Str := phone.filter Char.isDigit

/-- The states one call can reach: the freshly constructed engine,
optionally its `start_call`, then any number of processed messages
(no `reset_conversation`, which would begin a new call). -/
inductive Reachable : Chatbot → Prop where
  | init (avail : Bool) : Reachable (initChatbot avail)
  | start (avail : Bool) (phone : Str) (lk : LookupOutcome) :
      Reachable (start_call (initChatbot avail) phone lk).1
  | step {s : Chatbot} (msg : Str) (ai : CollectedInfo) (gen : Str) :
      Reachable s → Reachable (process_message s msg ai gen).1

/-! ### Lemmas about the manual tier -/

/-- The manual handler touches only the dictionary, the cursor and the
conversation state. -/
theorem manual_frame (s : Chatbot) (msg : Str) (s' : Chatbot)
    (o : Option Resp) (h : handle_manual_info_collection s msg = (s', o)) :
    s'.ai_available = s.ai_available
      ∧ s'.ai_extraction_failures = s.ai_extraction_failures
      ∧ s'.conversation_history = s.conversation_history
      ∧ s'.pharmacy_data = s.pharmacy_data
      ∧ s'.sent_emails = s.sent_emails
      ∧ s'.scheduled_callbacks = s.scheduled_callbacks := by
  rcases hm : manualCollect (fieldAt s.current_info_field) s.collected_info msg
    with ⟨info2, ext⟩
  simp only [handle_manual_info_collection, hm] at h
  split at h
  · cases h
    simp
  · cases ext <;> simp at h <;> split at h <;>
      first
        | (cases h; simp)
        | (split at h <;> cases h <;> simp)

/-- Entering the manual handler with the cursor past the last field
transitions unconditionally (`llm.py` 232-236). -/
theorem manual_past_end (s : Chatbot) (msg : Str)
    (h : 5 ≤ s.current_info_field) :
    handle_manual_info_collection s msg =
      ({s with current_state := .discussing_solutions},
       some (get_solution_benefits (s.collected_info.rx_volume.getD 0))) := by
  unfold handle_manual_info_collection
  rw [if_pos h]

/-- If the dictionary is complete after the manual attempt, the state
is `DISCUSSING_SOLUTIONS` and the reply is the benefits message. -/
theorem manual_complete (s : Chatbot) (msg : Str) (s' : Chatbot)
    (o : Option Resp) (h : handle_manual_info_collection s msg = (s', o))
    (hc : has_complete_info s'.collected_info = true) :
    s'.current_state = .discussing_solutions
      ∧ o = some (get_solution_benefits (s'.collected_info.rx_volume.getD 0)) := by
  rcases hm : manualCollect (fieldAt s.current_info_field) s.collected_info msg
    with ⟨info2, ext⟩
  simp only [handle_manual_info_collection, hm] at h
  split at h
  · cases h
    simp_all
  · cases ext <;> simp at h <;> split at h <;>
      first
        | (cases h; simp_all)
        | (split at h <;> cases h <;> simp_all)

/-- The manual handler either transitions to `DISCUSSING_SOLUTIONS`
(with the dictionary complete or the cursor past the last field) or
leaves the conversation state unchanged with the dictionary still
incomplete. -/
theorem manual_state_cases (s : Chatbot) (msg : Str) (s' : Chatbot)
    (o : Option Resp) (h : handle_manual_info_collection s msg = (s', o)) :
    (s'.current_state = .discussing_solutions
       ∧ (has_complete_info s'.collected_info = true ∨ 5 ≤ s'.current_info_field)
       ∧ o = some (get_solution_benefits (s'.collected_info.rx_volume.getD 0)))
    ∨ (s'.current_state = s.current_state
       ∧ has_complete_info s'.collected_info = false) := by
  rcases hm : manualCollect (fieldAt s.current_info_field) s.collected_info msg
    with ⟨info2, ext⟩
  simp only [handle_manual_info_collection, hm] at h
  split at h
  · cases h
    left
    simp_all
  · cases ext <;> simp at h <;> split at h <;>
      first
        | (cases h; simp_all)
        | (split at h <;> cases h <;> simp_all)

/-- The only exception the manual handler can raise (`llm.py` 367)
leaves the cursor at 5, the conversation state unchanged and the
dictionary incomplete. -/
theorem manual_raise (s : Chatbot) (msg : Str) (s' : Chatbot)
    (h : handle_manual_info_collection s msg = (s', none)) :
    5 ≤ s'.current_info_field ∧ s'.current_state = s.current_state
      ∧ has_complete_info s'.collected_info = false := by
  rcases hm : manualCollect (fieldAt s.current_info_field) s.collected_info msg
    with ⟨info2, ext⟩
  simp only [handle_manual_info_collection, hm] at h
  split at h
  · simp at h
  · cases ext
    · simp at h
      split at h <;> simp at h
    · simp at h
      split at h
      · simp at h
      · split at h
        · simp at h
        · simp at h
          subst h
          refine ⟨by simp; omega, by simp, by simp_all⟩

/-- A manual attempt either sets the `info_extracted` flag or leaves
the dictionary untouched. -/
theorem manualCollect_cases (f : Field) (c : CollectedInfo) (m : Str) :
    (manualCollect f c m).2 = true ∨ manualCollect f c m = (c, false) := by
  cases f <;> simp only [manualCollect] <;> split <;> simp

/-! ### Claim theorems, first batch -/

/-- C10: `_clean_phone_number` returns exactly the subsequence of the
decimal-digit characters of its input, in order, and is idempotent. -/
theorem c10_clean_phone_spec (phone : Str) :
    clean_phone_number phone = phone.filter Char.isDigit
    ∧ List.Sublist (clean_phone_number phone) phone
    ∧ (∀ c ∈ clean_phone_number phone, c.isDigit = true)
    ∧ clean_phone_number (clean_phone_number phone) = clean_phone_number phone := by
  refine ⟨rfl, List.filter_sublist phone, fun c hc => List.of_mem_filter hc, ?_⟩
  simp [clean_phone_number, List.filter_filter]

/-- C2: `start_call` on a lookup hit sets `DISCUSSING_SOLUTIONS`; on a
miss it sets `COLLECTING_INFO` and resets the field cursor to 0; on an
exception during lookup it sets `ERROR` and returns the fixed apology. -/
theorem c2_start_call_outcomes (s : Chatbot) (phone : Str) (p : PharmacyData) :
    (start_call s phone (.found p)).1.current_state = .discussing_solutions
    ∧ (start_call s phone .notFound).1.current_state = .collecting_info
    ∧ (start_call s phone .notFound).1.current_info_field = 0
    ∧ (start_call s phone .raised).1.current_state = .error
    ∧ (start_call s phone .raised).2 = .apiError :=
  ⟨rfl, rfl, rfl, rfl, rfl⟩

/-- C4: in a mid-collection manual attempt (cursor in range, dictionary
still incomplete) the cursor is incremented iff the attempt extracted a
value, and on a failed extraction the reply re-asks the current field's
question with the cursor unchanged. -/
theorem c4_manual_cursor_iff (s : Chatbot) (msg : Str) (s' : Chatbot)
    (o : Option Resp)
    (h5 : s.current_info_field < 5)
    (hc : has_complete_info s.collected_info = false)
    (h : handle_manual_info_collection s msg = (s', o)) :
    (s'.current_info_field = s.current_info_field + 1
       ↔ (manualCollect (fieldAt s.current_info_field) s.collected_info msg).2 = true)
    ∧ ((manualCollect (fieldAt s.current_info_field) s.collected_info msg).2 = false →
        s'.current_info_field = s.current_info_field
        ∧ o = some (.collectingInfo (fieldAt s.current_info_field))) := by
  rcases hm : manualCollect (fieldAt s.current_info_field) s.collected_info msg
    with ⟨info2, ext⟩
  simp only [handle_manual_info_collection, hm] at h
  split at h
  · omega
  · cases ext
    · have hsame : info2 = s.collected_info := by
        have := manualCollect_cases (fieldAt s.current_info_field)
          s.collected_info msg
        rw [hm] at this
        simp at this
        exact this
      subst hsame
      simp only [hc, Bool.false_eq_true, if_false] at h
      cases h
      refine ⟨by simp, fun _ => ⟨by simp, rfl⟩⟩
    · simp at h
      split at h
      · cases h
        simp_all
      · split at h <;> cases h <;> simp_all

/-- C8: a successful AI-tier extraction merges the parsed dictionary
into `collected_info` but leaves `current_info_field` unchanged; the
manual tier stores a value that depends only on the message (so it
overwrites whatever the slot held), and the manual handler's final
dictionary holds exactly that stored value for the attempted field. -/
theorem c8_ai_success_frame :
    (∀ (s : Chatbot) (msg : Str) (ai : CollectedInfo) (s' : Chatbot)
        (o : Option Resp),
      s.ai_available = true → s.ai_extraction_failures < 3 →
      aiGuard ai (get_next_missing_field s.collected_info) = true →
      aiValid ai (get_next_missing_field s.collected_info) = true →
      handle_info_collection s msg ai = (s', o) →
      s'.current_info_field = s.current_info_field
        ∧ s'.collected_info = mergeInfo s.collected_info ai)
    ∧ (∀ (f : Field) (c c' : CollectedInfo) (msg : Str),
        (manualCollect f c msg).2 = true →
        (manualCollect f c msg).1.get f = (manualCollect f c' msg).1.get f)
    ∧ (∀ (s : Chatbot) (msg : Str) (s' : Chatbot) (o : Option Resp),
        s.current_info_field < 5 →
        (manualCollect (fieldAt s.current_info_field) s.collected_info msg).2
          = true →
        handle_manual_info_collection s msg = (s', o) →
        s'.collected_info.get (fieldAt s.current_info_field)
          = (manualCollect (fieldAt s.current_info_field) s.collected_info
              msg).1.get (fieldAt s.current_info_field)) := by
  refine ⟨?_, ?_, ?_⟩
  · intro s msg ai s' o hav hf hg hv h
    have hcond : s.ai_available = true ∧ s.ai_extraction_failures < 3 :=
      ⟨hav, hf⟩
    by_cases hcomp : has_complete_info (mergeInfo s.collected_info ai) = true
    · have ht :
          info_collection_try s msg ai =
            ({s with collected_info := mergeInfo s.collected_info ai,
                     current_state := .discussing_solutions},
             some (get_solution_benefits
               ((mergeInfo s.collected_info ai).rx_volume.getD 0))) := by
        unfold info_collection_try
        rw [if_pos hcond, if_pos hg, if_pos hv, if_pos hcomp]
      simp only [handle_info_collection, ht] at h
      cases h
      simp
    · have ht :
          info_collection_try s msg ai =
            ({s with collected_info := mergeInfo s.collected_info ai},
             some (.collectingInfo
               (get_next_missing_field (mergeInfo s.collected_info ai)))) := by
        unfold info_collection_try
        rw [if_pos hcond, if_pos hg, if_pos hv, if_neg hcomp]
      simp only [handle_info_collection, ht] at h
      cases h
      simp
  · intro f c c' msg hx
    cases f <;>
      simp only [manualCollect] at hx ⊢ <;>
      (split at hx <;> rename_i heq) <;>
      simp_all [CollectedInfo.get]
  · intro s msg s' o h5 hx h
    rcases hm : manualCollect (fieldAt s.current_info_field) s.collected_info msg
      with ⟨info2, ext⟩
    rw [hm] at hx
    simp at hx
    subst hx
    simp only [handle_manual_info_collection, hm] at h
    split at h
    · omega
    · simp at h
      split at h
      · cases h
        simp
      · split at h <;> cases h <;> simp

/-! ### Lemmas about the info-collection tier and the boundary -/

/-- The `try` body of `_handle_info_collection` never lowers the
failure counter. -/
theorem ict_failures (s : Chatbot) (msg : Str) (ai : CollectedInfo)
    (s' : Chatbot) (o : Option Resp)
    (h : info_collection_try s msg ai = (s', o)) :
    s.ai_extraction_failures ≤ s'.ai_extraction_failures := by
  simp only [info_collection_try] at h
  split at h
  · split at h
    · split at h
      · split at h <;> cases h <;> simp
      · have := (manual_frame _ msg s' o h).2.1
        simp at this
        omega
    · have := (manual_frame _ msg s' o h).2.1
      simp at this
      omega
  · have := (manual_frame s msg s' o h).2.1
    omega

/-- Case analysis of the `try` body: either it transitioned to
`DISCUSSING_SOLUTIONS` (dictionary complete or cursor past the end)
answering with the benefits message, or the conversation state is
unchanged and the dictionary incomplete. -/
theorem ict_cases (s : Chatbot) (msg : Str) (ai : CollectedInfo)
    (s' : Chatbot) (o : Option Resp)
    (h : info_collection_try s msg ai = (s', o)) :
    (s'.current_state = .discussing_solutions
       ∧ (has_complete_info s'.collected_info = true ∨ 5 ≤ s'.current_info_field)
       ∧ o = some (get_solution_benefits (s'.collected_info.rx_volume.getD 0)))
    ∨ (s'.current_state = s.current_state
       ∧ has_complete_info s'.collected_info = false) := by
  simp only [info_collection_try] at h
  split at h
  · split at h
    · split at h
      · split at h
        · cases h
          left
          simp_all
        · cases h
          right
          simp_all
      · have := manual_state_cases _ msg s' o h
        simpa using this
    · have := manual_state_cases _ msg s' o h
      simpa using this
  · exact manual_state_cases s msg s' o h

/-- If the `try` body raised, the intermediate state has the cursor at
or past the last field, the conversation state unchanged and the
dictionary incomplete. -/
theorem ict_none (s : Chatbot) (msg : Str) (ai : CollectedInfo)
    (s' : Chatbot) (h : info_collection_try s msg ai = (s', none)) :
    5 ≤ s'.current_info_field ∧ s'.current_state = s.current_state
      ∧ has_complete_info s'.collected_info = false := by
  simp only [info_collection_try] at h
  split at h
  · split at h
    · split at h
      · split at h <;> simp at h
      · have := manual_raise _ msg s' h
        simpa using this
    · have := manual_raise _ msg s' h
      simpa using this
  · exact manual_raise s msg s' h

/-- `_handle_info_collection` never lets an exception escape: its
`except` clause's single retry always lands in the past-the-end branch
of the manual handler. -/
theorem hic_some (s : Chatbot) (msg : Str) (ai : CollectedInfo)
    (s' : Chatbot) (o : Option Resp)
    (h : handle_info_collection s msg ai = (s', o)) : o.isSome = true := by
  rcases hict : info_collection_try s msg ai with ⟨t, ot⟩
  cases ot
  · have h5 := (ict_none s msg ai t hict).1
    simp only [handle_info_collection, hict, manual_past_end t msg h5] at h
    cases h
    simp
  · simp only [handle_info_collection, hict] at h
    cases h
    simp

/-- Case analysis of `_handle_info_collection`, including the retry. -/
theorem hic_cases (s : Chatbot) (msg : Str) (ai : CollectedInfo)
    (s' : Chatbot) (o : Option Resp)
    (h : handle_info_collection s msg ai = (s', o)) :
    (s'.current_state = .discussing_solutions
       ∧ (has_complete_info s'.collected_info = true ∨ 5 ≤ s'.current_info_field)
       ∧ o = some (get_solution_benefits (s'.collected_info.rx_volume.getD 0)))
    ∨ (s'.current_state = s.current_state
       ∧ has_complete_info s'.collected_info = false) := by
  rcases hict : info_collection_try s msg ai with ⟨t, ot⟩
  cases ot
  · obtain ⟨h5, hstate, hcomp⟩ := ict_none s msg ai t hict
    simp only [handle_info_collection, hict, manual_past_end t msg h5] at h
    cases h
    left
    exact ⟨by simp, Or.inr (by simpa using h5), by simp⟩
  · simp only [handle_info_collection, hict] at h
    cases h
    exact ict_cases s msg ai _ _ hict

/-- `_handle_info_collection` never lowers the failure counter. -/
theorem hic_failures (s : Chatbot) (msg : Str) (ai : CollectedInfo)
    (s' : Chatbot) (o : Option Resp)
    (h : handle_info_collection s msg ai = (s', o)) :
    s.ai_extraction_failures ≤ s'.ai_extraction_failures := by
  rcases hict : info_collection_try s msg ai with ⟨t, ot⟩
  cases ot
  · have h5 := (ict_none s msg ai t hict).1
    simp only [handle_info_collection, hict, manual_past_end t msg h5] at h
    cases h
    have := ict_failures s msg ai t none hict
    simpa using this
  · simp only [handle_info_collection, hict] at h
    cases h
    exact ict_failures s msg ai _ _ hict

/-- In `COLLECTING_INFO` the dispatch selects `_handle_info_collection`. -/
theorem route_collecting (s : Chatbot) (msg : Str) (ai : CollectedInfo)
    (gen : Str) (h : s.current_state = .collecting_info) :
    route_message s msg ai gen = handle_info_collection s msg ai := by
  unfold route_message
  rw [h]

/-- `process_message` on a normally-returning handler. -/
theorem pm_eq_some (s : Chatbot) (msg : Str) (ai : CollectedInfo) (gen : Str)
    (s1 : Chatbot) (r : Resp)
    (h : route_message (appendHist s (.user msg)) msg ai gen = (s1, some r)) :
    process_message s msg ai gen = (appendHist s1 (.assistant r), r) := by
  simp only [process_message]
  rw [h]

/-- `process_message` on a handler that raised. -/
theorem pm_eq_none (s : Chatbot) (msg : Str) (ai : CollectedInfo) (gen : Str)
    (s1 : Chatbot)
    (h : route_message (appendHist s (.user msg)) msg ai gen = (s1, none)) :
    process_message s msg ai gen = (s1, .techDifficulties) := by
  simp only [process_message]
  rw [h]

/-- The dispatch never returns an escaped exception. -/
theorem route_some (t : Chatbot) (msg : Str) (ai : CollectedInfo) (gen : Str) :
    ((route_message t msg ai gen).2).isSome = true := by
  cases ht : t.current_state <;> simp only [route_message, ht]
  case collecting_info =>
    rcases hic : handle_info_collection t msg ai with ⟨s1, o⟩
    exact hic_some t msg ai s1 o hic
  all_goals simp

/-- Processing a message while `COLLECTING_INFO` either transitions to
`DISCUSSING_SOLUTIONS` (with the dictionary complete or the cursor past
the last field, replying with the benefits message) or stays in
`COLLECTING_INFO` with the dictionary still incomplete. -/
theorem pm_collecting_cases (s : Chatbot) (msg : Str) (ai : CollectedInfo)
    (gen : Str) (h : s.current_state = .collecting_info) :
    ((process_message s msg ai gen).1.current_state = .discussing_solutions
       ∧ (has_complete_info (process_message s msg ai gen).1.collected_info = true
            ∨ 5 ≤ (process_message s msg ai gen).1.current_info_field)
       ∧ (process_message s msg ai gen).2
           = get_solution_benefits
               ((process_message s msg ai gen).1.collected_info.rx_volume.getD 0))
    ∨ ((process_message s msg ai gen).1.current_state = .collecting_info
       ∧ has_complete_info (process_message s msg ai gen).1.collected_info
           = false) := by
  have hs0 : (appendHist s (.user msg)).current_state = .collecting_info := by
    simpa [appendHist] using h
  rcases hic : handle_info_collection (appendHist s (.user msg)) msg ai
    with ⟨s1, o⟩
  have hsome := hic_some _ msg ai s1 o hic
  rcases o with _ | r
  · simp at hsome
  · have hroute :
        route_message (appendHist s (.user msg)) msg ai gen = (s1, some r) := by
      rw [route_collecting _ msg ai gen hs0, hic]
    rw [pm_eq_some s msg ai gen s1 r hroute]
    rcases hic_cases _ msg ai s1 (some r) hic
      with ⟨hd, hor, hbenef⟩ | ⟨hsame, hcomp⟩
    · left
      simp only [Option.some.injEq] at hbenef
      exact ⟨by simpa [appendHist] using hd,
             by simpa [appendHist] using hor,
             by simpa [appendHist] using hbenef⟩
    · right
      rw [hs0] at hsame
      exact ⟨by simpa [appendHist] using hsame,
             by simpa [appendHist] using hcomp⟩

/-- Error recovery: one-shot transition back to `COLLECTING_INFO`,
disabling the AI tier, with the dictionary untouched. -/
theorem pm_error (s : Chatbot) (msg : Str) (ai : CollectedInfo) (gen : Str)
    (h : s.current_state = .error) :
    (process_message s msg ai gen).1.current_state = .collecting_info
    ∧ (process_message s msg ai gen).1.collected_info = s.collected_info
    ∧ (process_message s msg ai gen).1.ai_available = false
    ∧ (process_message s msg ai gen).2 = .errorRecovered := by
  simp [process_message, route_message, appendHist, h, handle_error_recovery]

/-- Outside `COLLECTING_INFO` and `ERROR`, a processed message leaves
the dictionary untouched and cannot enter `COLLECTING_INFO` or
`ERROR`. -/
theorem safe_step (s : Chatbot) (msg : Str) (ai : CollectedInfo) (gen : Str)
    (h1 : s.current_state ≠ .collecting_info)
    (h2 : s.current_state ≠ .error) :
    (process_message s msg ai gen).1.collected_info = s.collected_info
    ∧ (process_message s msg ai gen).1.current_state ≠ .collecting_info
    ∧ (process_message s msg ai gen).1.current_state ≠ .error := by
  cases hst : s.current_state
  case collecting_info => exact absurd hst h1
  case error => exact absurd hst h2
  case greeting =>
    simp [process_message, route_message, appendHist, hst]
  case discussing_solutions =>
    simp only [process_message, route_message, appendHist, hst,
      handle_solution_discussion]
    split
    · simp
    · split <;> simp
  case offering_follow_up =>
    simp only [process_message, route_message, appendHist, hst,
      handle_follow_up_offer]
    split
    · split <;> simp
    · split <;> simp
  case scheduling =>
    simp [process_message, route_message, appendHist, hst, handle_scheduling]
  case closing =>
    simp only [process_message, route_message, appendHist, hst, handle_closing]
    split <;> simp

/-- The two-part state invariant: in `COLLECTING_INFO` or `ERROR` the
dictionary is never complete. -/
def ChatInv (s : Chatbot) : Prop :=
  (s.current_state = .collecting_info →
     has_complete_info s.collected_info = false)
  ∧ (s.current_state = .error → has_complete_info s.collected_info = false)

/-- One processed message preserves the invariant. -/
theorem pm_inv (s : Chatbot) (msg : Str) (ai : CollectedInfo) (gen : Str)
    (hi : ChatInv s) : ChatInv (process_message s msg ai gen).1 := by
  by_cases hc : s.current_state = .collecting_info
  · rcases pm_collecting_cases s msg ai gen hc with ⟨hd, _, _⟩ | ⟨hcol, hcomp⟩
    · exact ⟨fun e => (by rw [hd] at e; cases e), fun e => (by rw [hd] at e; cases e)⟩
    · exact ⟨fun _ => hcomp, fun e => (by rw [hcol] at e; cases e)⟩
  · by_cases he : s.current_state = .error
    · obtain ⟨hst, hcoll, _, _⟩ := pm_error s msg ai gen he
      refine ⟨fun _ => ?_, fun e => by rw [hst] at e; cases e⟩
      rw [hcoll]
      exact hi.2 he
    · have hsafe := safe_step s msg ai gen hc he
      exact ⟨fun e => absurd e hsafe.2.1, fun e => absurd e hsafe.2.2⟩

/-- Every reachable state satisfies the invariant. -/
theorem inv_reachable (s : Chatbot) (h : Reachable s) : ChatInv s := by
  induction h with
  | init avail =>
    refine ⟨fun e => ?_, fun e => ?_⟩ <;> simp [initChatbot] at e
  | start avail phone lk =>
    cases lk with
    | found p =>
      refine ⟨fun e => ?_, fun e => ?_⟩ <;>
        simp [start_call, appendHist, initChatbot] at e
    | notFound =>
      refine ⟨fun _ => rfl, fun e => ?_⟩
      simp [start_call, appendHist, initChatbot] at e
    | raised =>
      refine ⟨fun e => ?_, fun _ => rfl⟩
      simp [start_call, initChatbot] at e
  | step msg ai gen hr ih => exact pm_inv _ msg ai gen ih

/-- A run that starts outside `COLLECTING_INFO` and `ERROR` never
reaches `COLLECTING_INFO`. -/
theorem safe_run (ins : List MsgIn) (s : Chatbot)
    (h1 : s.current_state ≠ .collecting_info)
    (h2 : s.current_state ≠ .error) :
    (run_messages s ins).current_state ≠ .collecting_info := by
  induction ins generalizing s with
  | nil => simpa [run_messages] using h1
  | cons i rest ih =>
    simp only [run_messages]
    have hs := safe_step s i.msg i.ai i.gen h1 h2
    exact ih _ hs.2.1 hs.2.2

/-! ### Claim theorems, second batch -/

/-- C5: from any reachable state whose dictionary is complete (all
five fields populated and truthy), no sequence of further processed
messages ever puts the call in `COLLECTING_INFO` again. -/
theorem c5_complete_never_recollects (s : Chatbot) (hr : Reachable s)
    (hc : has_complete_info s.collected_info = true) (ins : List MsgIn) :
    (run_messages s ins).current_state ≠ .collecting_info := by
  have hi := inv_reachable s hr
  have h1 : s.current_state ≠ .collecting_info := fun e => by
    rw [hi.1 e] at hc
    cases hc
  have h2 : s.current_state ≠ .error := fun e => by
    rw [hi.2 e] at hc
    cases hc
  exact safe_run ins s h1 h2

/-- C9: no handler exception escapes the dispatch, and the
`process_message` boundary resolves a (hypothetical) escape to the
fixed technical-difficulties apology while otherwise returning the
handler's reply. -/
theorem c9_no_exception_escapes (s : Chatbot) (msg : Str)
    (ai : CollectedInfo) (gen : Str) :
    ((route_message (appendHist s (.user msg)) msg ai gen).2).isSome = true
    ∧ (process_message s msg ai gen).2
        = ((route_message (appendHist s (.user msg)) msg ai gen).2).getD
            .techDifficulties := by
  refine ⟨route_some _ msg ai gen, ?_⟩
  rcases hroute : route_message (appendHist s (.user msg)) msg ai gen
    with ⟨s1, o⟩
  cases o <;> simp [process_message, hroute]

/-- One processed message never lowers the failure counter. -/
theorem pm_failures_mono (s : Chatbot) (msg : Str) (ai : CollectedInfo)
    (gen : Str) :
    s.ai_extraction_failures
      ≤ (process_message s msg ai gen).1.ai_extraction_failures := by
  rcases hroute : route_message (appendHist s (.user msg)) msg ai gen
    with ⟨s1, o⟩
  have hfail : s.ai_extraction_failures ≤ s1.ai_extraction_failures := by
    unfold route_message at hroute
    cases hst : s.current_state <;>
      simp only [appendHist, hst] at hroute
    case collecting_info =>
      have := hic_failures _ msg ai s1 o hroute
      simpa [appendHist] using this
    case greeting => cases hroute; simp
    case discussing_solutions =>
      cases hroute
      unfold handle_solution_discussion
      split
      · simp
      · split <;> simp
    case offering_follow_up =>
      cases hroute
      simp only [handle_follow_up_offer]
      split
      · split <;> simp
      · split <;> simp
    case scheduling =>
      cases hroute
      simp [handle_scheduling]
    case closing =>
      cases hroute
      unfold handle_closing
      split <;> simp
    case error =>
      cases hroute
      simp [handle_error_recovery]
  cases o
  · rw [pm_eq_none s msg ai gen s1 hroute]
    exact hfail
  · rename_i r
    rw [pm_eq_some s msg ai gen s1 r hroute]
    simpa [appendHist] using hfail

/-- C3: once the failure counter has reached 3, no later message of
the call ever issues the AI extraction request again. -/
theorem c3_ai_tier_stays_disabled (s : Chatbot)
    (h : 3 ≤ s.ai_extraction_failures) (ins : List MsgIn) :
    ∀ t ∈ processing_states s ins, issues_extraction t = false := by
  induction ins generalizing s with
  | nil =>
    intro t ht
    simp [processing_states] at ht
  | cons i rest ih =>
    intro t ht
    simp only [processing_states, List.mem_cons] at ht
    rcases ht with rfl | ht
    · have hf : decide (t.ai_extraction_failures < 3) = false :=
        decide_eq_false (by omega)
      simp [issues_extraction, hf]
    · exact ih _ (le_trans h (pm_failures_mono s i.msg i.ai i.gen)) t ht

/-- C1 (amended): while `COLLECTING_INFO`, a processed message lands in
`COLLECTING_INFO` or `DISCUSSING_SOLUTIONS`; completeness of the
dictionary after the attempt still forces the transition with the
volume-tiered benefits message, but the transition also fires with an
incomplete dictionary once the field cursor has passed the last field. -/
theorem c1_collecting_transitions (s : Chatbot) (msg : Str)
    (ai : CollectedInfo) (gen : Str)
    (h : s.current_state = .collecting_info) :
    ((process_message s msg ai gen).1.current_state = .collecting_info
       ∨ (process_message s msg ai gen).1.current_state = .discussing_solutions)
    ∧ (has_complete_info (process_message s msg ai gen).1.collected_info = true →
        (process_message s msg ai gen).1.current_state = .discussing_solutions
        ∧ (process_message s msg ai gen).2
            = get_solution_benefits
                ((process_message s msg ai gen).1.collected_info.rx_volume.getD 0))
    ∧ ((process_message s msg ai gen).1.current_state = .discussing_solutions →
        has_complete_info (process_message s msg ai gen).1.collected_info = true
        ∨ 5 ≤ (process_message s msg ai gen).1.current_info_field) := by
  rcases pm_collecting_cases s msg ai gen h
    with ⟨hd, hor, hbenef⟩ | ⟨hcol, hcomp⟩
  · exact ⟨Or.inr hd, fun _ => ⟨hd, hbenef⟩, fun _ => hor⟩
  · refine ⟨Or.inl hcol, fun e => ?_, fun e => ?_⟩
    · rw [hcomp] at e
      cases e
    · rw [hcol] at e
      cases e

/-! ### Lemmas about the follow-up offer -/

/-- `process_message` while `OFFERING_FOLLOW_UP` is the follow-up
handler wrapped between the two transcript appends. -/
theorem pm_offering (s : Chatbot) (msg : Str) (ai : CollectedInfo) (gen : Str)
    (h : s.current_state = .offering_follow_up) :
    process_message s msg ai gen
      = (appendHist (handle_follow_up_offer (appendHist s (.user msg)) msg).1
           (.assistant (handle_follow_up_offer (appendHist s (.user msg)) msg).2),
         (handle_follow_up_offer (appendHist s (.user msg)) msg).2) := by
  apply pm_eq_some
  simp [route_message, appendHist, h]

/-- The single record the email branch appends: `send_welcome_email`'s
`email_data` (`function_calls.py` 56-65) for the `PharmacyData` built
at `llm.py` 427-435. -/
def offerEmailRecord (t : Chatbot) (em : Str) : EmailRecord :=
  { id := t.sent_emails.length + 1,
    to_email := if em.isEmpty then (("contact@pharmacy.com").data) else em,
    pharmacy_name := get_pharmacy_name t,
    contact_person := t.collected_info.contact_person.getD [],
    rx_volume := t.collected_info.rx_volume.getD 0 }

/-- The email branch of `_handle_follow_up_offer` (`llm.py` 421-442):
known address, message mentioning email. -/
theorem offer_email_eq (t : Chatbot) (msg : Str) (em : Str)
    (hemail : containsSub (toLowerStr msg) (("email").data) = true)
    (hem : get_email_address t = some em) :
    handle_follow_up_offer t msg
      = ({t with sent_emails := t.sent_emails ++ [offerEmailRecord t em],
                 current_state := .closing},
         .successfulClosing true (get_pharmacy_name t)) := by
  simp only [handle_follow_up_offer, send_welcome_email, offerEmailRecord]
  rw [if_pos hemail, hem]

/-- The offer-repeating branch of `_handle_follow_up_offer`
(`llm.py` 451-452): no recognized keyword. -/
theorem offer_repeat_eq (t : Chatbot) (msg : Str)
    (h1 : containsSub (toLowerStr msg) (("email").data) = false)
    (h2 : containsSub (toLowerStr msg) (("call").data) = false)
    (h3 : containsSub (toLowerStr msg) (("consultation").data) = false) :
    handle_follow_up_offer t msg = (t, .followUpRepeat) := by
  simp [handle_follow_up_offer, h1, h2, h3]

/-! ### Claim theorems, third batch -/

/-- C6: while `OFFERING_FOLLOW_UP`, a message mentioning "email" with a
known address appends exactly one record to the email log and closes;
a message matching neither the email nor the call/consultation keywords
leaves the state and the email log unchanged and repeats the offer. -/
theorem c6_follow_up_offer_email (s : Chatbot) (msg : Str)
    (ai : CollectedInfo) (gen : Str) (em : Str)
    (hstate : s.current_state = .offering_follow_up) :
    (containsSub (toLowerStr msg) (("email").data) = true →
      get_email_address s = some em →
      (∃ e : EmailRecord,
        (process_message s msg ai gen).1.sent_emails = s.sent_emails ++ [e])
      ∧ (process_message s msg ai gen).1.current_state = .closing)
    ∧ (containsSub (toLowerStr msg) (("email").data) = false →
       containsSub (toLowerStr msg) (("call").data) = false →
       containsSub (toLowerStr msg) (("consultation").data) = false →
       (process_message s msg ai gen).1.current_state = .offering_follow_up
       ∧ (process_message s msg ai gen).2 = .followUpRepeat
       ∧ (process_message s msg ai gen).1.sent_emails = s.sent_emails) := by
  rw [pm_offering s msg ai gen hstate]
  constructor
  · intro hemail hem
    have hem0 : get_email_address (appendHist s (.user msg)) = some em := hem
    rw [offer_email_eq _ msg em hemail hem0]
    refine ⟨⟨offerEmailRecord (appendHist s (.user msg)) em, ?_⟩, ?_⟩
    · simp [appendHist]
    · simp [appendHist]
  · intro h1 h2 h3
    rw [offer_repeat_eq _ msg h1 h2 h3]
    refine ⟨?_, rfl, ?_⟩ <;> simp [appendHist, hstate]

/-- C7: the manual tier accepts falsy extracted values as successes:
an empty message fills `pharmacy_name`, `location` or `contact_person`
with the empty string and advances the cursor, a message whose first
digit run is `"0"` stores volume 0 and advances, such values can never
satisfy the completeness check, and once the cursor is past the last
field the next `COLLECTING_INFO` message (AI tier off) transitions to
`DISCUSSING_SOLUTIONS` even though the dictionary is incomplete. -/
theorem c7_falsy_values_accepted :
    (∀ s : Chatbot, s.current_info_field = 0 ∨ s.current_info_field = 1
        ∨ s.current_info_field = 3 →
      (handle_manual_info_collection s []).1.current_info_field
          = s.current_info_field + 1
        ∧ (handle_manual_info_collection s []).1.collected_info.get
            (fieldAt s.current_info_field) = some (.s []))
    ∧ (∀ (s : Chatbot) (msg : Str), s.current_info_field = 2 →
        firstDigitRun msg = some [('0')] →
        (handle_manual_info_collection s msg).1.current_info_field = 3
          ∧ (handle_manual_info_collection s msg).1.collected_info.rx_volume
              = some 0)
    ∧ (∀ c : CollectedInfo,
        c.pharmacy_name = some [] ∨ c.location = some []
          ∨ c.contact_person = some [] ∨ c.rx_volume = some 0 →
        has_complete_info c = false)
    ∧ (∀ (s : Chatbot) (msg : Str) (ai : CollectedInfo) (gen : Str),
        s.current_state = .collecting_info → s.ai_available = false →
        5 ≤ s.current_info_field →
        has_complete_info s.collected_info = false →
        (process_message s msg ai gen).1.current_state = .discussing_solutions
          ∧ has_complete_info
              (process_message s msg ai gen).1.collected_info = false) := by
  refine ⟨?_, ?_, ?_, ?_⟩
  · intro s h
    have hx0 : extract_pharmacy_name ([] : Str) = some [] := by decide
    have hx1 : extract_location ([] : Str) = some [] := by decide
    have hx3 : extract_contact_person ([] : Str) = some [] := by decide
    rcases h with h | h | h <;>
      simp [handle_manual_info_collection, h, fieldAt, manualCollect,
        hx0, hx1, hx3, has_complete_info, truthyS, CollectedInfo.get]
  · intro s msg h2 hdr
    have hx : extract_rx_volume msg = some 0 := by
      unfold extract_rx_volume
      rw [hdr]
      decide
    simp [handle_manual_info_collection, h2, fieldAt, manualCollect, hx,
      has_complete_info, truthyS, truthyN]
  · intro c h
    rcases h with h | h | h | h <;>
      simp [has_complete_info, truthyS, truthyN, h]
  · intro s msg ai gen hstate hav h5 hcomp
    have hs0 : (appendHist s (.user msg)).current_state = .collecting_info := by
      simpa [appendHist] using hstate
    have hcnd : ¬((appendHist s (.user msg)).ai_available = true
        ∧ (appendHist s (.user msg)).ai_extraction_failures < 3) := by
      simp [appendHist, hav]
    have h50 : 5 ≤ (appendHist s (.user msg)).current_info_field := by
      simpa [appendHist] using h5
    have ht : info_collection_try (appendHist s (.user msg)) msg ai
        = handle_manual_info_collection (appendHist s (.user msg)) msg := by
      unfold info_collection_try
      rw [if_neg hcnd]
    have hic : handle_info_collection (appendHist s (.user msg)) msg ai
        = ({appendHist s (.user msg) with
              current_state := .discussing_solutions},
           some (get_solution_benefits
             ((appendHist s (.user msg)).collected_info.rx_volume.getD 0))) := by
      simp only [handle_info_collection, ht, manual_past_end _ msg h50]
    have hroute : route_message (appendHist s (.user msg)) msg ai gen
        = ({appendHist s (.user msg) with
              current_state := .discussing_solutions},
           some (get_solution_benefits
             ((appendHist s (.user msg)).collected_info.rx_volume.getD 0))) := by
      rw [route_collecting _ msg ai gen hs0, hic]
    rw [pm_eq_some s msg ai gen _ _ hroute]
    constructor
    · simp [appendHist]
    · simpa [appendHist] using hcomp

/-! ### Counterexample and witnesses -/

/-- The call state reached from a fresh manual-mode call (lookup miss)
after the four messages `""`, `""`, `"0"`, `""`: the first four fields
hold falsy values and the cursor is at the `email` field. -/
def c1Run : Chatbot :=
  run_messages (start_call (initChatbot false) (("5551234").data) .notFound).1
    [{ msg := [] }, { msg := [] }, { msg := [('0')] }, { msg := [] }]

/-- C1 counterexample: from the reachable state `c1Run` (still
`COLLECTING_INFO`), the message `"a@b.co"` transitions the call to
`DISCUSSING_SOLUTIONS` although the completeness check fails after the
attempt — refuting "exactly when that completeness check holds". -/
theorem c1_counterexample :
    c1Run.current_state = .collecting_info
    ∧ (process_message c1Run (("a@b.co").data) {} []).1.current_state
        = .discussing_solutions
    ∧ has_complete_info
        (process_message c1Run (("a@b.co").data) {} []).1.collected_info
        = false := by
  refine ⟨by decide, by decide, by decide⟩

/-- A collecting state with the first four fields truthy and the
cursor on `email`. -/
def c1W4 : Chatbot :=
  { ai_available := false, current_state := .collecting_info,
    collected_info :=
      { pharmacy_name := some (("CityCare Pharmacy").data),
        location := some (("Orlando").data),
        rx_volume := some 1500,
        contact_person := some (("John Smith").data) },
    current_info_field := 4 }

/-- Witness for C1 (amended): the completing email message transitions
with the volume-tiered benefits reply. -/
theorem c1_witness :
    (process_message c1W4 (("john@acme.com").data) {} []).1.current_state
        = .discussing_solutions
    ∧ (process_message c1W4 (("john@acme.com").data) {} []).2
        = get_solution_benefits 1500 := by
  have h := c1_collecting_transitions c1W4 (("john@acme.com").data) {} [] rfl
  have hc : has_complete_info
      (process_message c1W4 (("john@acme.com").data) {} []).1.collected_info
      = true := by decide
  obtain ⟨hs, hr⟩ := h.2.1 hc
  refine ⟨hs, ?_⟩
  rw [hr]
  decide

/-- A call state whose failure counter has reached the threshold. -/
def c3S : Chatbot :=
  { ai_available := true, ai_extraction_failures := 3,
    current_state := .collecting_info }

/-- Witness for C3: two further messages, neither of whose processing
states issues the extraction request. -/
theorem c3_witness :
    issues_extraction c3S = false
    ∧ issues_extraction (process_message c3S [] {} []).1 = false := by
  have h := c3_ai_tier_stays_disabled c3S (by decide)
    [{ msg := [] }, { msg := [('h')] }]
  exact ⟨h c3S (by simp [processing_states]),
         h (process_message c3S [] {} []).1 (by simp [processing_states])⟩

/-- A fresh manual-mode collecting state. -/
def c4S : Chatbot := { ai_available := false, current_state := .collecting_info }

/-- A message none of the `pharmacy_name` heuristics accept. -/
def c4Msg : Str := ("this is a long message without any keywords present").data

/-- Witness for C4: the failed extraction leaves the cursor and re-asks
the same field's question. -/
theorem c4_witness :
    (handle_manual_info_collection c4S c4Msg).1.current_info_field = 0
    ∧ (handle_manual_info_collection c4S c4Msg).2
        = some (.collectingInfo .pharmacy_name) := by
  have h := c4_manual_cursor_iff c4S c4Msg
    (handle_manual_info_collection c4S c4Msg).1
    (handle_manual_info_collection c4S c4Msg).2
    (by decide) (by decide) rfl
  have hx : (manualCollect (fieldAt c4S.current_info_field)
      c4S.collected_info c4Msg).2 = false := by decide
  obtain ⟨h1, h2⟩ := h.2 hx
  exact ⟨h1, h2⟩

/-- The complete state reached by a full five-message manual
collection from a fresh call. -/
def c5S : Chatbot :=
  (process_message (process_message (process_message (process_message
    (process_message
      (start_call (initChatbot false) (("5551234").data) .notFound).1
      (("CityCare Pharmacy").data) {} []).1
    (("Orlando").data) {} []).1
    (("1500").data) {} []).1
    (("John Smith").data) {} []).1
    (("john@acme.com").data) {} []).1

/-- Witness for C5: from the completed reachable state, two further
messages never land in `COLLECTING_INFO`. -/
theorem c5_witness :
    (run_messages c5S [{ msg := ("yes".data) }, { msg := ("ok".data) }]
      ).current_state ≠ .collecting_info := by
  have hr : Reachable c5S :=
    Reachable.step _ _ _ (Reachable.step _ _ _ (Reachable.step _ _ _
      (Reachable.step _ _ _ (Reachable.step _ _ _
        (Reachable.start false (("5551234").data) .notFound)))))
  exact c5_complete_never_recollects c5S hr (by decide) _

/-- An offering state that knows an email address. -/
def c6S : Chatbot :=
  { ai_available := false, current_state := .offering_follow_up,
    collected_info := { email := some (("a@b.co").data) } }

/-- Witness for C6: the email request appends one log record and
closes; an unrecognized reply repeats the offer. -/
theorem c6_witness :
    (process_message c6S (("send the email please").data) {} []).1.current_state
        = .closing
    ∧ (process_message c6S (("send the email please").data) {} []
        ).1.sent_emails.length = 1
    ∧ (process_message c6S (("ok").data) {} []).1.current_state
        = .offering_follow_up
    ∧ (process_message c6S (("ok").data) {} []).2 = .followUpRepeat := by
  have h1 := (c6_follow_up_offer_email c6S (("send the email please").data)
    {} [] (("a@b.co").data) rfl).1 (by decide) (by decide)
  have h2 := (c6_follow_up_offer_email c6S (("ok").data)
    {} [] (("a@b.co").data) rfl).2 (by decide) (by decide) (by decide)
  obtain ⟨⟨e, he⟩, hs⟩ := h1
  refine ⟨hs, ?_, h2.1, h2.2.1⟩
  rw [he]
  simp [c6S]

/-- A fresh manual-mode collecting state, cursor on `pharmacy_name`. -/
def c7A : Chatbot := { ai_available := false, current_state := .collecting_info }

/-- A manual-mode collecting state, cursor on `rx_volume`. -/
def c7B : Chatbot :=
  { ai_available := false, current_state := .collecting_info,
    current_info_field := 2 }

/-- A dictionary whose only flaw is an empty `pharmacy_name`. -/
def c7C : CollectedInfo :=
  { pharmacy_name := some [], location := some (("Orlando").data),
    rx_volume := some 1500, contact_person := some (("John Smith").data),
    email := some (("a@b.co").data) }

/-- A manual-mode collecting state with the cursor past the last field
and an incomplete dictionary. -/
def c7D : Chatbot :=
  { ai_available := false, current_state := .collecting_info,
    collected_info := { pharmacy_name := some [] },
    current_info_field := 5 }

/-- Witness for C7: concrete instances of all four conjuncts. -/
theorem c7_witness :
    (handle_manual_info_collection c7A []).1.current_info_field = 1
    ∧ (handle_manual_info_collection c7B [('0')]).1.collected_info.rx_volume
        = some 0
    ∧ has_complete_info c7C = false
    ∧ (process_message c7D [('h')] {} []).1.current_state
        = .discussing_solutions := by
  have h := c7_falsy_values_accepted
  refine ⟨(h.1 c7A (Or.inl rfl)).1, (h.2.1 c7B [('0')] rfl (by decide)).2,
    h.2.2.1 c7C (Or.inl rfl), (h.2.2.2 c7D [('h')] {} [] rfl rfl (by decide)
      (by decide)).1⟩

/-- A fresh AI-mode collecting state. -/
def c8S : Chatbot := { ai_available := true, current_state := .collecting_info }

/-- An AI extraction answer for the `pharmacy_name` field. -/
def c8Ai : CollectedInfo := { pharmacy_name := some (("Acme").data) }

/-- A manual-mode collecting state whose `pharmacy_name` slot is
already filled while the cursor still points at it. -/
def c8M : Chatbot :=
  { ai_available := false, current_state := .collecting_info,
    collected_info := c8Ai }

/-- Witness for C8: the AI success leaves the cursor at 0 while filling
the slot; a later manual extraction stores the value it would store
into any dictionary, and the handler keeps exactly that value. -/
theorem c8_witness :
    (handle_info_collection c8S [('h')] c8Ai).1.current_info_field = 0
    ∧ (handle_info_collection c8S [('h')] c8Ai).1.collected_info
        = mergeInfo c8S.collected_info c8Ai
    ∧ (manualCollect .pharmacy_name c8Ai (("Acme Pharmacy").data)).1.get
          .pharmacy_name
        = (manualCollect .pharmacy_name {} (("Acme Pharmacy").data)).1.get
          .pharmacy_name
    ∧ (handle_manual_info_collection c8M (("Acme Pharmacy").data)
        ).1.collected_info.get (fieldAt c8M.current_info_field)
        = (manualCollect (fieldAt c8M.current_info_field) c8M.collected_info
            (("Acme Pharmacy").data)).1.get (fieldAt c8M.current_info_field) := by
  have h := c8_ai_success_frame
  obtain ⟨h1, h2⟩ := h.1 c8S [('h')] c8Ai
    (handle_info_collection c8S [('h')] c8Ai).1
    (handle_info_collection c8S [('h')] c8Ai).2
    rfl (by decide) (by decide) (by decide) rfl
  refine ⟨h1, h2, ?_, ?_⟩
  · exact h.2.1 .pharmacy_name c8Ai {} (("Acme Pharmacy").data) (by decide)
  · exact h.2.2 c8M (("Acme Pharmacy").data)
      (handle_manual_info_collection c8M (("Acme Pharmacy").data)).1
      (handle_manual_info_collection c8M (("Acme Pharmacy").data)).2
      (by decide) (by decide) rfl

end Pharmesol
